import Mathlib

/-!
Shallow embedding of `panda/src/glxdisplay/glxGraphicsWindow.cxx`
(the Panda3D GLX window: lifecycle, window-manager property negotiation,
and the X-event-to-input translation engine).

External X11 calls (XWarpPointer, XConfigureWindow, ...) and calls into the
per-window input-device sink (`_input_devices[i].button_down(...)`, ...) are
modelled as elements of an explicit `Output` trace; the mutable fields of the
window object (`_xwindow`, `_ic`, `_awaiting_configure`, `_properties`,
`_input_devices`, ...) are modelled as a `WState` record that each operation
transforms.
-/

namespace GlxWindow

/-- Z-order values of `WindowProperties` (`Z_bottom`, `Z_normal`, `Z_top`). -/
inductive ZOrder where
  | bottom
  | normal
  | top
deriving DecidableEq

/-- The sparse window-property set: every attribute is independently present
or absent, mirroring Panda's `WindowProperties` specified-bits.  Origin is a
signed pair, size an unsigned pair. -/
structure WindowProperties where
  origin : Option (Int × Int) := none
  size : Option (Nat × Nat) := none
  title : Option String := none
  fullscreen : Option Bool := none
  undecorated : Option Bool := none
  minimized : Option Bool := none
  foreground : Option Bool := none
  cursorHidden : Option Bool := none
  zOrder : Option ZOrder := none
  fixedSize : Option Bool := none
  isOpen : Option Bool := none
deriving DecidableEq

/-- `WindowProperties::get_fullscreen()`: false when unspecified. -/
def getFullscreen (p : WindowProperties) : Bool := p.fullscreen.getD false

/-- `WindowProperties::get_undecorated()`: false when unspecified. -/
def getUndecorated (p : WindowProperties) : Bool := p.undecorated.getD false

/-- `WindowProperties::get_foreground()`: false when unspecified. -/
def getForeground (p : WindowProperties) : Bool := p.foreground.getD false

/-- `WindowProperties::get_fixed_size()`: false when unspecified. -/
def getFixedSize (p : WindowProperties) : Bool := p.fixedSize.getD false

/-- `WindowProperties::get_x_size()/get_y_size()` as a pair (the code only
reads the size of an open window, whose size is always specified; the
default is irrelevant under that invariant). -/
def getSize (p : WindowProperties) : Nat × Nat := p.size.getD (0, 0)

/-- `WindowProperties::is_any_specified()`. -/
def anySpecified (p : WindowProperties) : Bool :=
  p.origin.isSome || p.size.isSome || p.title.isSome || p.fullscreen.isSome ||
  p.undecorated.isSome || p.minimized.isSome || p.foreground.isSome ||
  p.cursorHidden.isSome || p.zOrder.isSome || p.fixedSize.isSome ||
  p.isOpen.isSome

/-- choose the delta's field when present, the base field otherwise. -/
def ovr {α : Type} (base delta : Option α) : Option α :=
  match delta with
  | some v => some v
  | none => base

/-- `WindowProperties::add_properties(delta)`: fields present in the delta
override the base. -/
def addProperties (base delta : WindowProperties) : WindowProperties where
  origin := ovr base.origin delta.origin
  size := ovr base.size delta.size
  title := ovr base.title delta.title
  fullscreen := ovr base.fullscreen delta.fullscreen
  undecorated := ovr base.undecorated delta.undecorated
  minimized := ovr base.minimized delta.minimized
  foreground := ovr base.foreground delta.foreground
  cursorHidden := ovr base.cursorHidden delta.cursorHidden
  zOrder := ovr base.zOrder delta.zOrder
  fixedSize := ovr base.fixedSize delta.fixedSize
  isOpen := ovr base.isOpen delta.isOpen

/-- Panda `ButtonHandle` values reachable from this translation unit.
`asciiKey c` is `KeyboardButton::ascii_key(c)`; the named keyboard keys that
Panda registers as ASCII keys are definitions below, not constructors. -/
inductive ButtonHandle where
  | none
  | asciiKey (c : Char)
  | f1 | f2 | f3 | f4 | f5 | f6 | f7 | f8 | f9 | f10 | f11 | f12
  | left | up | right | down
  | page_up | page_down | home | key_end | insert
  | shift | control | alt | meta | caps_lock | shift_lock
  | wheel_up | wheel_down
  | mouseButton (n : Int)
deriving DecidableEq

namespace ButtonHandle

/-- Modelled from the spec: the engine's button registry (outside this
repository slice) registers these keyboard buttons as ASCII keys, so they
carry an ASCII equivalent for raw keystroke fallback. -/
def backspace : ButtonHandle := asciiKey (Char.ofNat 8)

def tab : ButtonHandle := asciiKey (Char.ofNat 9)

def enter : ButtonHandle := asciiKey (Char.ofNat 13)

def escape : ButtonHandle := asciiKey (Char.ofNat 27)

def space : ButtonHandle := asciiKey (Char.ofNat 32)

def del : ButtonHandle := asciiKey (Char.ofNat 127)

/-- `ButtonHandle::has_ascii_equivalent()/get_ascii_equivalent()` combined. -/
def get_ascii_equivalent : ButtonHandle → Option Char
  | asciiKey c => some c
  | _ => Option.none

end ButtonHandle

/-- The X `XKeyEvent` fields this unit reads.  `keycode` and `time` come from
the wire event; `keysym` records the result of the external
`XLookupKeysym(&event, 0)` call (a pure function of the event for a fixed
server keyboard mapping). -/
structure XKeyEvent where
  keycode : Nat
  time : Nat
  x : Int
  y : Int
  keysym : Nat
deriving DecidableEq

/-- `XLookupKeysym(&key_event, 0)`, see `XKeyEvent.keysym`. -/
def xLookupKeysym (e : XKeyEvent) : Nat := e.keysym

/-- `glxGraphicsWindow::get_button`: the static total keysym-to-button table.
Keysym values are the X11 `XK_*` constants from `X11/keysym.h`. -/
def get_button (key_event : XKeyEvent) : ButtonHandle :=
  match xLookupKeysym key_event with
  | 0xFF08 => ButtonHandle.backspace
  | 0xFF09 => ButtonHandle.tab
  | 0xFF0D => ButtonHandle.enter
  | 0xFF1B => ButtonHandle.escape
  | 0x020 => ButtonHandle.space
  | 0x021 => ButtonHandle.asciiKey (Char.ofNat 0x21)
  | 0x022 => ButtonHandle.asciiKey (Char.ofNat 0x22)
  | 0x023 => ButtonHandle.asciiKey (Char.ofNat 0x23)
  | 0x024 => ButtonHandle.asciiKey (Char.ofNat 0x24)
  | 0x025 => ButtonHandle.asciiKey (Char.ofNat 0x25)
  | 0x026 => ButtonHandle.asciiKey (Char.ofNat 0x26)
  | 0x027 => ButtonHandle.asciiKey (Char.ofNat 0x27)
  | 0x028 => ButtonHandle.asciiKey (Char.ofNat 0x28)
  | 0x029 => ButtonHandle.asciiKey (Char.ofNat 0x29)
  | 0x02a => ButtonHandle.asciiKey (Char.ofNat 0x2a)
  | 0x02b => ButtonHandle.asciiKey (Char.ofNat 0x2b)
  | 0x02c => ButtonHandle.asciiKey (Char.ofNat 0x2c)
  | 0x02d => ButtonHandle.asciiKey (Char.ofNat 0x2d)
  | 0x02e => ButtonHandle.asciiKey (Char.ofNat 0x2e)
  | 0x02f => ButtonHandle.asciiKey (Char.ofNat 0x2f)
  | 0x030 => ButtonHandle.asciiKey (Char.ofNat 0x30)
  | 0x031 => ButtonHandle.asciiKey (Char.ofNat 0x31)
  | 0x032 => ButtonHandle.asciiKey (Char.ofNat 0x32)
  | 0x033 => ButtonHandle.asciiKey (Char.ofNat 0x33)
  | 0x034 => ButtonHandle.asciiKey (Char.ofNat 0x34)
  | 0x035 => ButtonHandle.asciiKey (Char.ofNat 0x35)
  | 0x036 => ButtonHandle.asciiKey (Char.ofNat 0x36)
  | 0x037 => ButtonHandle.asciiKey (Char.ofNat 0x37)
  | 0x038 => ButtonHandle.asciiKey (Char.ofNat 0x38)
  | 0x039 => ButtonHandle.asciiKey (Char.ofNat 0x39)
  | 0x03a => ButtonHandle.asciiKey (Char.ofNat 0x3a)
  | 0x03b => ButtonHandle.asciiKey (Char.ofNat 0x3b)
  | 0x03c => ButtonHandle.asciiKey (Char.ofNat 0x3c)
  | 0x03d => ButtonHandle.asciiKey (Char.ofNat 0x3d)
  | 0x03e => ButtonHandle.asciiKey (Char.ofNat 0x3e)
  | 0x03f => ButtonHandle.asciiKey (Char.ofNat 0x3f)
  | 0x040 => ButtonHandle.asciiKey (Char.ofNat 0x40)
  | 0x041 => ButtonHandle.asciiKey (Char.ofNat 0x41)
  | 0x042 => ButtonHandle.asciiKey (Char.ofNat 0x42)
  | 0x043 => ButtonHandle.asciiKey (Char.ofNat 0x43)
  | 0x044 => ButtonHandle.asciiKey (Char.ofNat 0x44)
  | 0x045 => ButtonHandle.asciiKey (Char.ofNat 0x45)
  | 0x046 => ButtonHandle.asciiKey (Char.ofNat 0x46)
  | 0x047 => ButtonHandle.asciiKey (Char.ofNat 0x47)
  | 0x048 => ButtonHandle.asciiKey (Char.ofNat 0x48)
  | 0x049 => ButtonHandle.asciiKey (Char.ofNat 0x49)
  | 0x04a => ButtonHandle.asciiKey (Char.ofNat 0x4a)
  | 0x04b => ButtonHandle.asciiKey (Char.ofNat 0x4b)
  | 0x04c => ButtonHandle.asciiKey (Char.ofNat 0x4c)
  | 0x04d => ButtonHandle.asciiKey (Char.ofNat 0x4d)
  | 0x04e => ButtonHandle.asciiKey (Char.ofNat 0x4e)
  | 0x04f => ButtonHandle.asciiKey (Char.ofNat 0x4f)
  | 0x050 => ButtonHandle.asciiKey (Char.ofNat 0x50)
  | 0x051 => ButtonHandle.asciiKey (Char.ofNat 0x51)
  | 0x052 => ButtonHandle.asciiKey (Char.ofNat 0x52)
  | 0x053 => ButtonHandle.asciiKey (Char.ofNat 0x53)
  | 0x054 => ButtonHandle.asciiKey (Char.ofNat 0x54)
  | 0x055 => ButtonHandle.asciiKey (Char.ofNat 0x55)
  | 0x056 => ButtonHandle.asciiKey (Char.ofNat 0x56)
  | 0x057 => ButtonHandle.asciiKey (Char.ofNat 0x57)
  | 0x058 => ButtonHandle.asciiKey (Char.ofNat 0x58)
  | 0x059 => ButtonHandle.asciiKey (Char.ofNat 0x59)
  | 0x05a => ButtonHandle.asciiKey (Char.ofNat 0x5a)
  | 0x05b => ButtonHandle.asciiKey (Char.ofNat 0x5b)
  | 0x05c => ButtonHandle.asciiKey (Char.ofNat 0x5c)
  | 0x05d => ButtonHandle.asciiKey (Char.ofNat 0x5d)
  | 0x05e => ButtonHandle.asciiKey (Char.ofNat 0x5e)
  | 0x05f => ButtonHandle.asciiKey (Char.ofNat 0x5f)
  | 0x060 => ButtonHandle.asciiKey (Char.ofNat 0x60)
  | 0x061 => ButtonHandle.asciiKey (Char.ofNat 0x61)
  | 0x062 => ButtonHandle.asciiKey (Char.ofNat 0x62)
  | 0x063 => ButtonHandle.asciiKey (Char.ofNat 0x63)
  | 0x064 => ButtonHandle.asciiKey (Char.ofNat 0x64)
  | 0x065 => ButtonHandle.asciiKey (Char.ofNat 0x65)
  | 0x066 => ButtonHandle.asciiKey (Char.ofNat 0x66)
  | 0x067 => ButtonHandle.asciiKey (Char.ofNat 0x67)
  | 0x068 => ButtonHandle.asciiKey (Char.ofNat 0x68)
  | 0x069 => ButtonHandle.asciiKey (Char.ofNat 0x69)
  | 0x06a => ButtonHandle.asciiKey (Char.ofNat 0x6a)
  | 0x06b => ButtonHandle.asciiKey (Char.ofNat 0x6b)
  | 0x06c => ButtonHandle.asciiKey (Char.ofNat 0x6c)
  | 0x06d => ButtonHandle.asciiKey (Char.ofNat 0x6d)
  | 0x06e => ButtonHandle.asciiKey (Char.ofNat 0x6e)
  | 0x06f => ButtonHandle.asciiKey (Char.ofNat 0x6f)
  | 0x070 => ButtonHandle.asciiKey (Char.ofNat 0x70)
  | 0x071 => ButtonHandle.asciiKey (Char.ofNat 0x71)
  | 0x072 => ButtonHandle.asciiKey (Char.ofNat 0x72)
  | 0x073 => ButtonHandle.asciiKey (Char.ofNat 0x73)
  | 0x074 => ButtonHandle.asciiKey (Char.ofNat 0x74)
  | 0x075 => ButtonHandle.asciiKey (Char.ofNat 0x75)
  | 0x076 => ButtonHandle.asciiKey (Char.ofNat 0x76)
  | 0x077 => ButtonHandle.asciiKey (Char.ofNat 0x77)
  | 0x078 => ButtonHandle.asciiKey (Char.ofNat 0x78)
  | 0x079 => ButtonHandle.asciiKey (Char.ofNat 0x79)
  | 0x07a => ButtonHandle.asciiKey (Char.ofNat 0x7a)
  | 0x07b => ButtonHandle.asciiKey (Char.ofNat 0x7b)
  | 0x07c => ButtonHandle.asciiKey (Char.ofNat 0x7c)
  | 0x07d => ButtonHandle.asciiKey (Char.ofNat 0x7d)
  | 0x07e => ButtonHandle.asciiKey (Char.ofNat 0x7e)
  | 0xFFBE => ButtonHandle.f1
  | 0xFFBF => ButtonHandle.f2
  | 0xFFC0 => ButtonHandle.f3
  | 0xFFC1 => ButtonHandle.f4
  | 0xFFC2 => ButtonHandle.f5
  | 0xFFC3 => ButtonHandle.f6
  | 0xFFC4 => ButtonHandle.f7
  | 0xFFC5 => ButtonHandle.f8
  | 0xFFC6 => ButtonHandle.f9
  | 0xFFC7 => ButtonHandle.f10
  | 0xFFC8 => ButtonHandle.f11
  | 0xFFC9 => ButtonHandle.f12
  | 0xFF96 => ButtonHandle.left
  | 0xFF51 => ButtonHandle.left
  | 0xFF97 => ButtonHandle.up
  | 0xFF52 => ButtonHandle.up
  | 0xFF98 => ButtonHandle.right
  | 0xFF53 => ButtonHandle.right
  | 0xFF99 => ButtonHandle.down
  | 0xFF54 => ButtonHandle.down
  | 0xFF9A => ButtonHandle.page_up
  | 0xFF55 => ButtonHandle.page_up
  | 0xFF9B => ButtonHandle.page_down
  | 0xFF56 => ButtonHandle.page_down
  | 0xFF95 => ButtonHandle.home
  | 0xFF50 => ButtonHandle.home
  | 0xFF9C => ButtonHandle.key_end
  | 0xFF57 => ButtonHandle.key_end
  | 0xFF9E => ButtonHandle.insert
  | 0xFF63 => ButtonHandle.insert
  | 0xFF9F => ButtonHandle.del
  | 0xFFFF => ButtonHandle.del
  | 0xFFE1 => ButtonHandle.shift
  | 0xFFE2 => ButtonHandle.shift
  | 0xFFE3 => ButtonHandle.control
  | 0xFFE4 => ButtonHandle.control
  | 0xFFE9 => ButtonHandle.alt
  | 0xFFEA => ButtonHandle.alt
  | 0xFFE7 => ButtonHandle.meta
  | 0xFFE8 => ButtonHandle.meta
  | 0xFFE5 => ButtonHandle.caps_lock
  | 0xFFE6 => ButtonHandle.shift_lock
  | _ => ButtonHandle.none

/-- Config defaults of `glx_wheel_up_button` / `glx_wheel_down_button`
(declared in `config_glxdisplay`, outside this slice; X core buttons 4/5). -/
def glx_wheel_up_button : Nat := 4

def glx_wheel_down_button : Nat := 5

/-- `glxGraphicsWindow::get_mouse_button`: wheel codes map to dedicated
wheel identifiers, all others to a zero-based ordinal mouse button. -/
def get_mouse_button (button : Nat) : ButtonHandle :=
  if button = glx_wheel_up_button then ButtonHandle.wheel_up
  else if button = glx_wheel_down_button then ButtonHandle.wheel_down
  else ButtonHandle.mouseButton ((button : Int) - 1)

/-- Shared WM atoms (owned by the pipe; distinct interned X atoms). -/
inductive Atom where
  | wmDeleteWindow
  | netWmWindowType
  | netWmWindowTypeSplash
  | netWmWindowTypeFullscreen
  | netWmState
  | netWmStateFullscreen
  | netWmStateAbove
  | netWmStateBelow
  | netWmStateAdd
  | netWmStateRemove
deriving DecidableEq

/-- One `(state, action)` pair of the `SetAction` array built by
`set_wm_properties` for post-map client messages. -/
structure SetAction where
  state : Atom
  action : Atom
deriving DecidableEq

/-- The `XSizeHints` fields written by `set_wm_properties`: `USPosition`,
`USSize` and, for a fixed-size request, `PMinSize`/`PMaxSize`. -/
structure SizeHintsRec where
  pos : Option (Int × Int) := none
  size : Option (Nat × Nat) := none
  minMax : Option (Nat × Nat) := none
deriving DecidableEq

/-- Everything `set_wm_properties` writes to the server, gathered as data:
window name, size hints, WM hints initial state, the `_net_wm_window_type`
and `_net_wm_state` atom arrays, the `(state, action)` array, the class
hint, the client messages (sent only when already mapped), and the WM
protocols registration. -/
structure WMHintsRequest where
  windowName : Option String := none
  sizeHints : Option SizeHintsRec := none
  initialStateIconic : Bool := false
  typeData : List Atom := []
  stateData : List Atom := []
  setData : List SetAction := []
  classHint : Option String := none
  clientMessages : List SetAction := []
  protocols : List Atom := []
deriving DecidableEq

/-- The `XWindowChanges` fields filled by `set_properties_now` plus the
stack mode enum (`Below` / `TopIf` / `Above`). -/
inductive StackMode where
  | below
  | topIf
  | above
deriving DecidableEq

structure XWindowChangesReq where
  origin : Option (Int × Int) := none
  size : Option (Nat × Nat) := none
  stackMode : Option StackMode := none
deriving DecidableEq

/-- One pointer-and-button input device slot (`GraphicsWindowInputDevice`
pointer data: in-window flag and coordinates). -/
structure InputDevice where
  inWindow : Bool
  x : Int
  y : Int
deriving DecidableEq

/-- Default used for out-of-range device reads (never relevant under the
invariant that slot 0 exists). -/
def defaultDevice : InputDevice := ⟨false, 0, 0⟩

/-- Observable effects: calls into the input-device sink, X server calls
and engine notifications, in program order. -/
inductive Output where
  | setPointer (device : Nat) (x y : Int)
  | pointerOut (device : Nat)
  | buttonDown (device : Nat) (b : ButtonHandle)
  | buttonUp (device : Nat) (b : ButtonHandle)
  | keystroke (device : Nat) (c : Char)
  | keystrokeIC (e : XKeyEvent)
  | systemChangedProperties (p : WindowProperties)
  | xConfigureWindow (width height : Nat)
  | xReconfigureWMWindow (c : XWindowChangesReq)
  | setInputFocus (focused : Bool)
  | defineCursor (hidden : Bool)
  | wmRequest (h : WMHintsRequest)
  | warpPointer (x y : Int)
  | throwEvent (name : String)
  | makeCurrentNone
  | destroyIC
  | destroyWindow
  | flushDisplay
  | pollRawMice
  | logDestroyNotify
  | logUnhandled (t : Nat)
deriving DecidableEq

/-- The mutable window-object fields touched by the operations under
verification, plus the pipe data they read (display size). -/
structure WState where
  xwindow : Option Nat
  ic : Bool
  gsg : Bool
  active : Bool
  awaitingConfigure : Bool
  properties : WindowProperties
  inputDevices : List InputDevice
  closeRequestEvent : String
  displayWidth : Nat
  displayHeight : Nat
deriving DecidableEq

/-- `_input_devices[d].set_pointer_in_window(x, y)`. -/
def setPointerInWindow (s : WState) (d : Nat) (x y : Int) : WState :=
  { s with inputDevices := s.inputDevices.set d ⟨true, x, y⟩ }

/-- `_input_devices[d].set_pointer_out_of_window()`. -/
def setPointerOut (s : WState) (d : Nat) : WState :=
  { s with inputDevices :=
      s.inputDevices.set d { s.inputDevices.getD d defaultDevice with inWindow := false } }

/-- Modelled from the spec: the base-class `GraphicsWindow::
system_changed_properties(delta)` (outside this slice) adopts the delta into
the live property model and notifies the engine. -/
def system_changed_properties (s : WState) (delta : WindowProperties) :
    WState × List Output :=
  ({ s with properties := addProperties s.properties delta },
   [Output.systemChangedProperties delta])

/-- `glxGraphicsWindow::close_window`: release the context binding and drop
the GSG if bound, destroy the input context if present, destroy the native
window and flush if the handle is non-null; each step individually guarded. -/
def close_window (s : WState) : WState × List Output :=
  let a :=
    if s.gsg then ({ s with gsg := false, active := false }, [Output.makeCurrentNone])
    else (s, [])
  let b :=
    if a.1.ic then ({ a.1 with ic := false }, [Output.destroyIC])
    else (a.1, [])
  let c :=
    if b.1.xwindow.isSome then
      ({ b.1 with xwindow := none }, [Output.destroyWindow, Output.flushDisplay])
    else (b.1, [])
  (c.1, a.2 ++ b.2 ++ c.2)

/-- `glxGraphicsWindow::move_pointer(device, x, y)`. -/
def move_pointer (s : WState) (device : Nat) (x y : Int) :
    WState × Bool × List Output :=
  if device = 0 then
    if !(getForeground s.properties) ||
       !((s.inputDevices.getD 0 defaultDevice).inWindow) then
      (s, false, [])
    else
      (setPointerInWindow s 0 x y, true, [Output.warpPointer x y])
  else
    if device < 1 || s.inputDevices.length ≤ device then
      (s, false, [])
    else
      (setPointerInWindow s device x y, true, [])

/-- `glxGraphicsWindow::handle_keystroke`: pointer update, then the IC path
(`XwcLookupString`, recorded as one composed-keystroke call) or the raw
ASCII fallback through `get_button`. -/
def handle_keystroke (s : WState) (e : XKeyEvent) : WState × List Output :=
  let s1 := setPointerInWindow s 0 e.x e.y
  if s.ic then
    (s1, [Output.setPointer 0 e.x e.y, Output.keystrokeIC e])
  else
    match (get_button e).get_ascii_equivalent with
    | some c => (s1, [Output.setPointer 0 e.x e.y, Output.keystroke 0 c])
    | none => (s1, [Output.setPointer 0 e.x e.y])

/-- `glxGraphicsWindow::handle_keypress`: pointer update, then button-down
unless the keysym is unmapped. -/
def handle_keypress (s : WState) (e : XKeyEvent) : WState × List Output :=
  let s1 := setPointerInWindow s 0 e.x e.y
  match get_button e with
  | ButtonHandle.none => (s1, [Output.setPointer 0 e.x e.y])
  | b => (s1, [Output.setPointer 0 e.x e.y, Output.buttonDown 0 b])

/-- `glxGraphicsWindow::handle_keyrelease`: pointer update, then button-up
unless the keysym is unmapped. -/
def handle_keyrelease (s : WState) (e : XKeyEvent) : WState × List Output :=
  let s1 := setPointerInWindow s 0 e.x e.y
  match get_button e with
  | ButtonHandle.none => (s1, [Output.setPointer 0 e.x e.y])
  | b => (s1, [Output.setPointer 0 e.x e.y, Output.buttonUp 0 b])

/-- The native events `process_events` dispatches on, post-`XFilterEvent`
(a filtered event never reaches the loop body). -/
inductive XEvent where
  | reparentNotify
  | configureNotify (width height : Nat)
  | buttonPress (button : Nat) (x y : Int)
  | buttonRelease (button : Nat) (x y : Int)
  | motionNotify (x y : Int)
  | keyPress (k : XKeyEvent)
  | keyRelease (k : XKeyEvent)
  | enterNotify (x y : Int)
  | leaveNotify
  | focusIn
  | focusOut
  | unmapNotify
  | mapNotify
  | clientMessage (a : Atom)
  | destroyNotify
  | unknown (t : Nat)
deriving DecidableEq

/-- C unsigned subtraction `a - b` on X `Time` values (unsigned long,
64-bit), for `a, b < 2^64`. -/
def xTimeSub (a b : Nat) : Nat := (a + (2 ^ 64 - b % 2 ^ 64)) % 2 ^ 64

/-- The key-repeat test from `process_events`: the buffered release `r` is a
repeat artifact exactly when the next event is a `KeyPress` with the same
native keycode whose time differs by at most 1 (C unsigned arithmetic). -/
def isRepeatOf (r : XKeyEvent) : XEvent → Bool
  | XEvent.keyPress p => p.keycode == r.keycode && decide (xTimeSub p.time r.time ≤ 1)
  | _ => false

/-- The per-pass drain state: the window object, the buffered key release
(`got_keyrelease_event` / `keyrelease_event`), and the output trace so far. -/
structure DrainState where
  w : WState
  held : Option XKeyEvent
  out : List Output
deriving DecidableEq

/-- The `switch (event.type)` body of `process_events`, reached with no
buffered release pending. -/
def processSwitch (ds : DrainState) (e : XEvent) : DrainState :=
  match e with
  | XEvent.reparentNotify => ds
  | XEvent.configureNotify ew eh =>
    let w1 := { ds.w with awaitingConfigure := false }
    if getFixedSize w1.properties then
      let (mw, mh) := getSize w1.properties
      if ew ≠ mw ∨ eh ≠ mh then
        ⟨w1, ds.held, ds.out ++ [Output.xConfigureWindow mw mh]⟩
      else
        ⟨w1, ds.held, ds.out⟩
    else
      let a := system_changed_properties w1 { size := some (ew, eh) }
      ⟨a.1, ds.held, ds.out ++ a.2⟩
  | XEvent.buttonPress b x y =>
    ⟨setPointerInWindow ds.w 0 x y, ds.held,
     ds.out ++ [Output.setPointer 0 x y, Output.buttonDown 0 (get_mouse_button b)]⟩
  | XEvent.buttonRelease b x y =>
    ⟨setPointerInWindow ds.w 0 x y, ds.held,
     ds.out ++ [Output.setPointer 0 x y, Output.buttonUp 0 (get_mouse_button b)]⟩
  | XEvent.motionNotify x y =>
    ⟨setPointerInWindow ds.w 0 x y, ds.held, ds.out ++ [Output.setPointer 0 x y]⟩
  | XEvent.keyPress k =>
    let a := handle_keystroke ds.w k
    let b := handle_keypress a.1 k
    ⟨b.1, ds.held, ds.out ++ a.2 ++ b.2⟩
  | XEvent.keyRelease k => ⟨ds.w, some k, ds.out⟩
  | XEvent.enterNotify x y =>
    ⟨setPointerInWindow ds.w 0 x y, ds.held, ds.out ++ [Output.setPointer 0 x y]⟩
  | XEvent.leaveNotify =>
    ⟨setPointerOut ds.w 0, ds.held, ds.out ++ [Output.pointerOut 0]⟩
  | XEvent.focusIn =>
    let a := system_changed_properties ds.w { foreground := some true }
    ⟨a.1, ds.held, ds.out ++ a.2⟩
  | XEvent.focusOut =>
    let a := system_changed_properties ds.w { foreground := some false }
    ⟨a.1, ds.held, ds.out ++ a.2⟩
  | XEvent.unmapNotify =>
    let a := system_changed_properties ds.w { minimized := some true }
    ⟨a.1, ds.held, ds.out ++ a.2⟩
  | XEvent.mapNotify =>
    let a := system_changed_properties ds.w { minimized := some false }
    ⟨a.1, ds.held, ds.out ++ a.2 ++ [Output.setInputFocus true]⟩
  | XEvent.clientMessage a =>
    if a = Atom.wmDeleteWindow then
      if ds.w.closeRequestEvent ≠ "" then
        ⟨ds.w, ds.held, ds.out ++ [Output.throwEvent ds.w.closeRequestEvent]⟩
      else
        let a := close_window ds.w
        let b := system_changed_properties a.1 { isOpen := some false }
        ⟨b.1, ds.held, ds.out ++ a.2 ++ b.2⟩
    else ds
  | XEvent.destroyNotify => ⟨ds.w, ds.held, ds.out ++ [Output.logDestroyNotify]⟩
  | XEvent.unknown t => ⟨ds.w, ds.held, ds.out ++ [Output.logUnhandled t]⟩

/-- Flush the buffered release as genuine, then fall into the switch. -/
def flushThenSwitch (ds : DrainState) (r : XKeyEvent) (e : XEvent) : DrainState :=
  let a := handle_keyrelease ds.w r
  processSwitch ⟨a.1, none, ds.out ++ a.2⟩ e

/-- One iteration of the `while (XCheckIfEvent(...))` loop: the buffered
key-release disambiguation followed by the event switch. -/
def drainStep (ds : DrainState) (e : XEvent) : DrainState :=
  match ds.held with
  | none => processSwitch ⟨ds.w, none, ds.out⟩ e
  | some r =>
    if isRepeatOf r e then
      match e with
      | XEvent.keyPress p =>
        let a := handle_keystroke ds.w p
        let b := handle_keypress a.1 p
        ⟨b.1, none, ds.out ++ a.2 ++ b.2⟩
      | _ => flushThenSwitch ds r e
    else
      flushThenSwitch ds r e

/-- The full event loop over the drained queue. -/
def drainLoop (ds : DrainState) (evs : List XEvent) : DrainState :=
  evs.foldl drainStep ds

/-- End of the drain pass: a still-buffered release is flushed as genuine. -/
def drainFlush (ds : DrainState) : DrainState :=
  match ds.held with
  | none => ds
  | some r =>
    let a := handle_keyrelease ds.w r
    ⟨a.1, none, ds.out ++ a.2⟩

/-- The event-translation part of `process_events` on one drained queue,
starting with `got_keyrelease_event = false`. -/
def drainEvents (w : WState) (evs : List XEvent) : DrainState :=
  drainFlush (drainLoop ⟨w, none, []⟩ evs)

/-- `glxGraphicsWindow::process_events` (after the base-class call): return
at once when the native handle is null, otherwise poll the raw mice and
drain the queue.  `evs` is the queue `XCheckIfEvent` yields this pass. -/
def process_events (w : WState) (evs : List XEvent) : WState × List Output :=
  if w.xwindow.isNone then
    (w, [])
  else
    let ds := drainEvents w evs
    (ds.w, Output.pollRawMice :: ds.out)

/-- The `type_data` array of `set_wm_properties`, in fill order: the
fullscreen type atom, then the splash type for an undecorated
non-fullscreen window. -/
def wmTypeData (fs undec : Bool) : List Atom :=
  (if fs then [Atom.netWmWindowTypeFullscreen] else []) ++
  (if undec && !fs then [Atom.netWmWindowTypeSplash] else [])

/-- The `state_data` array of `set_wm_properties`, in fill order: the
fullscreen state atom, then the z-order state atom. -/
def wmStateData (fs : Bool) (zo : Option ZOrder) : List Atom :=
  (if fs then [Atom.netWmStateFullscreen] else []) ++
  (match zo with
   | some ZOrder.bottom => [Atom.netWmStateBelow]
   | some ZOrder.normal => []
   | some ZOrder.top => [Atom.netWmStateAbove]
   | none => [])

/-- The `set_data` array of `set_wm_properties`, in fill order: exactly one
fullscreen action, then the z-order actions. -/
def wmSetData (fs : Bool) (zo : Option ZOrder) : List SetAction :=
  (if fs then [⟨Atom.netWmStateFullscreen, Atom.netWmStateAdd⟩]
   else [⟨Atom.netWmStateFullscreen, Atom.netWmStateRemove⟩]) ++
  (match zo with
   | some ZOrder.bottom =>
     [⟨Atom.netWmStateBelow, Atom.netWmStateAdd⟩,
      ⟨Atom.netWmStateAbove, Atom.netWmStateRemove⟩]
   | some ZOrder.normal =>
     [⟨Atom.netWmStateBelow, Atom.netWmStateRemove⟩,
      ⟨Atom.netWmStateAbove, Atom.netWmStateRemove⟩]
   | some ZOrder.top =>
     [⟨Atom.netWmStateBelow, Atom.netWmStateRemove⟩,
      ⟨Atom.netWmStateAbove, Atom.netWmStateAdd⟩]
   | none => [])

/-- `glxGraphicsWindow::set_wm_properties(properties, already_mapped)`,
gathered as the data it writes.  Client messages to the root window carry
the `(state, action)` pairs and are sent only when already mapped; before
mapping the type/state lists are written directly as window properties
(both lists are always written by `XChangeProperty`). -/
def set_wm_properties (properties : WindowProperties) (already_mapped : Bool) :
    WMHintsRequest :=
  let fs := getFullscreen properties
  { windowName := properties.title
    sizeHints :=
      if properties.origin.isSome || properties.size.isSome then
        some { pos := properties.origin
               size := properties.size
               minMax :=
                 if properties.size.isSome && properties.fixedSize.isSome then
                   properties.size
                 else none }
      else none
    initialStateIconic := properties.minimized.getD false
    typeData := wmTypeData fs (getUndecorated properties)
    stateData := wmStateData fs properties.zOrder
    setData := wmSetData fs properties.zOrder
    classHint := if getUndecorated properties then some "Undecorated" else none
    clientMessages := if already_mapped then wmSetData fs properties.zOrder else []
    protocols := [Atom.wmDeleteWindow] }

/-- `Z_bottom/Z_normal/Z_top` to the classic `XWindowChanges.stack_mode`. -/
def zToStack : ZOrder → StackMode
  | ZOrder.bottom => StackMode.below
  | ZOrder.normal => StackMode.topIf
  | ZOrder.top => StackMode.above

/-- `glxGraphicsWindow::set_properties_now(properties)` on an open window
(the null-pipe early return is the shutting-down path and is not modelled).
The base-class `GraphicsWindow::set_properties_now` call is modelled from
the spec as consuming none of the properties handled below.  Title and
fullscreen are adopted into `_properties` immediately; origin, size and
z-order go out as one `XReconfigureWMWindow` request, which latches
`_awaiting_configure`; cursor and focus requests follow; finally the merged
properties go to `set_wm_properties` in already-mapped mode. -/
def fullscreenAdjust (s : WState) (properties : WindowProperties) :
    WindowProperties :=
  if getFullscreen properties then
    { properties with
        undecorated := some true
        origin := some (0, 0)
        size := some (s.displayWidth, s.displayHeight) }
  else properties

/-- The `_properties` updates performed by `set_properties_now`: title and
fullscreen are adopted immediately, z-order is adopted when present, the
cursor-hidden flag is adopted when present; origin and size are never
touched here (they wait for the configure acknowledgement). -/
def spnProps (base req : WindowProperties) : WindowProperties :=
  let p1 :=
    match req.title with
    | some t => { base with title := some t }
    | none => base
  let p2 :=
    match req.fullscreen with
    | some f => { p1 with fullscreen := some f }
    | none => p1
  let p3 :=
    match req.zOrder with
    | some z => { p2 with zOrder := some z }
    | none => p2
  match req.cursorHidden with
  | some b => { p3 with cursorHidden := some b }
  | none => p3

/-- The `XWindowChanges` filled by `set_properties_now`. -/
def spnChanges (req : WindowProperties) : XWindowChangesReq :=
  { origin := req.origin, size := req.size, stackMode := req.zOrder.map zToStack }

/-- `value_mask != 0`: some geometry field (origin, size or stacking) was
requested. -/
def spnMask (req : WindowProperties) : Bool :=
  req.origin.isSome || req.size.isSome || req.zOrder.isSome

def set_properties_now (s : WState) (properties : WindowProperties) :
    WState × List Output :=
  let req := fullscreenAdjust s properties
  if !(anySpecified req) then
    (s, [])
  else
    let wm := addProperties s.properties req
    let aw := if spnMask req then true else s.awaitingConfigure
    let out1 :=
      if spnMask req then [Output.xReconfigureWMWindow (spnChanges req)] else []
    let out2 :=
      match req.cursorHidden with
      | some b => [Output.defineCursor b]
      | none => []
    let out3 :=
      match req.foreground with
      | some b => [Output.setInputFocus b]
      | none => []
    ({ s with properties := spnProps s.properties req, awaitingConfigure := aw },
     out1 ++ out2 ++ out3 ++ [Output.wmRequest (set_wm_properties wm true)])

/-- Keystroke emissions in an output trace (raw ASCII or composed). -/
def isKeystrokeOut : Output → Bool
  | Output.keystroke _ _ => true
  | Output.keystrokeIC _ => true
  | _ => false

/-- Button-down emissions in an output trace. -/
def isButtonDownOut : Output → Bool
  | Output.buttonDown _ _ => true
  | _ => false

/-- Button-up emissions in an output trace. -/
def isButtonUpOut : Output → Bool
  | Output.buttonUp _ _ => true
  | _ => false

/-- No atom receives both an add and a remove action in the list: any two
entries for the same state atom carry the same action. -/
def noConflict (l : List SetAction) : Bool :=
  l.all fun a => l.all fun b => !(a.state == b.state) || (a.action == b.action)

/-- A concrete open window used to instantiate the theorems: focused, fixed
size 100x100 at (10,10), normal z-order, pointer inside. -/
def wOpen : WState :=
  { xwindow := some 1
    ic := false
    gsg := true
    active := true
    awaitingConfigure := false
    properties :=
      { origin := some (10, 10)
        size := some (100, 100)
        fixedSize := some true
        zOrder := some ZOrder.normal
        foreground := some true }
    inputDevices := [⟨true, 0, 0⟩]
    closeRequestEvent := ""
    displayWidth := 800
    displayHeight := 600 }

/-- The same window with a null native handle (closed). -/
def wClosed : WState := { wOpen with xwindow := none }

/-- A key release of keycode 38 (keysym a) at time 1000. -/
def relEv : XKeyEvent := ⟨38, 1000, 5, 6, 0x61⟩

/-- A key press of keycode 38 (keysym a) at time 1001. -/
def prsEv : XKeyEvent := ⟨38, 1001, 5, 6, 0x61⟩

/-! ## Helper lemmas -/

theorem getD_set_self {α : Type} (l : List α) (i : Nat) (v d : α)
    (h : i < l.length) : (l.set i v).getD i d = v := by
  induction l generalizing i with
  | nil => simp at h
  | cons a t ih =>
    cases i with
    | zero => rfl
    | succ j => simpa using ih j (by simpa using h)

theorem close_window_fields (s : WState) :
    (close_window s).1.awaitingConfigure = s.awaitingConfigure ∧
    (close_window s).1.properties = s.properties ∧
    (close_window s).1.gsg = false ∧
    (close_window s).1.ic = false ∧
    (close_window s).1.xwindow = none := by
  rcases s with ⟨xw, ic, gsg, act, awt, props, devs, cre, dw, dh⟩
  cases xw <;> cases ic <;> cases gsg <;> simp [close_window]

theorem ascii_eq_of_get_ascii {b : ButtonHandle} {c : Char}
    (h : b.get_ascii_equivalent = some c) : b = ButtonHandle.asciiKey c := by
  cases b <;> simp [ButtonHandle.get_ascii_equivalent] at h <;> simp [h]

theorem xTimeSub_le_one {pt rt : Nat} (h1 : rt ≤ pt) (h2 : pt ≤ rt + 1)
    (h3 : pt < 2 ^ 64) : xTimeSub pt rt ≤ 1 := by
  unfold xTimeSub
  have hrt : rt % 2 ^ 64 = rt := Nat.mod_eq_of_lt (lt_of_le_of_lt h1 h3)
  rw [hrt]
  have he : pt + (2 ^ 64 - rt) = 2 ^ 64 + (pt - rt) := by omega
  rw [he, Nat.add_mod_left, Nat.mod_eq_of_lt (by omega)]
  omega

theorem handle_keystroke_fst (s : WState) (e : XKeyEvent) :
    (handle_keystroke s e).1 = setPointerInWindow s 0 e.x e.y := by
  unfold handle_keystroke
  split
  · rfl
  · split <;> rfl

theorem handle_keypress_fst (s : WState) (e : XKeyEvent) :
    (handle_keypress s e).1 = setPointerInWindow s 0 e.x e.y := by
  unfold handle_keypress
  split <;> rfl

theorem handle_keyrelease_fst (s : WState) (e : XKeyEvent) :
    (handle_keyrelease s e).1 = setPointerInWindow s 0 e.x e.y := by
  unfold handle_keyrelease
  split <;> rfl

theorem processSwitch_awaiting (ds : DrainState) (e : XEvent)
    (h : (processSwitch ds e).w.awaitingConfigure = false) :
    ds.w.awaitingConfigure = false ∨ ∃ a b, e = XEvent.configureNotify a b := by
  cases e with
  | configureNotify a b => exact Or.inr ⟨a, b, rfl⟩
  | clientMessage a =>
    refine Or.inl ?_
    by_cases h1 : a = Atom.wmDeleteWindow
    · by_cases h2 : ds.w.closeRequestEvent ≠ ""
      · simpa [processSwitch, h1, h2] using h
      · simpa [processSwitch, h1, h2, system_changed_properties,
          (close_window_fields ds.w).1] using h
    · simpa [processSwitch, h1] using h
  | _ =>
    refine Or.inl ?_ <;>
    simpa [processSwitch, setPointerInWindow, setPointerOut,
      system_changed_properties, handle_keystroke_fst, handle_keypress_fst] using h

theorem drainStep_awaiting (ds : DrainState) (e : XEvent)
    (h : (drainStep ds e).w.awaitingConfigure = false) :
    ds.w.awaitingConfigure = false ∨ ∃ a b, e = XEvent.configureNotify a b := by
  rcases hh : ds.held with _ | r
  · exact processSwitch_awaiting ⟨ds.w, none, ds.out⟩ e (by simpa [drainStep, hh] using h)
  · rw [drainStep, hh] at h
    by_cases hrep : isRepeatOf r e
    · cases e with
      | keyPress p =>
        refine Or.inl ?_
        simpa [hrep, handle_keystroke_fst, handle_keypress_fst, setPointerInWindow] using h
      | _ =>
        simp [isRepeatOf] at hrep
    · have := processSwitch_awaiting
        ⟨(handle_keyrelease ds.w r).1, none, ds.out ++ (handle_keyrelease ds.w r).2⟩ e
        (by simpa [hrep, flushThenSwitch] using h)
      rcases this with h1 | h2
      · exact Or.inl (by simpa [handle_keyrelease_fst, setPointerInWindow] using h1)
      · exact Or.inr h2

theorem drainLoop_awaiting (evs : List XEvent) : ∀ ds : DrainState,
    (drainLoop ds evs).w.awaitingConfigure = false →
    ds.w.awaitingConfigure = false ∨ ∃ a b, XEvent.configureNotify a b ∈ evs := by
  induction evs with
  | nil => exact fun ds h => Or.inl h
  | cons e evs ih =>
    intro ds h
    rcases ih (drainStep ds e) h with h1 | ⟨a, b, hm⟩
    · rcases drainStep_awaiting ds e h1 with h2 | ⟨a, b, he⟩
      · exact Or.inl h2
      · exact Or.inr ⟨a, b, by simp [he]⟩
    · exact Or.inr ⟨a, b, List.mem_cons_of_mem _ hm⟩

theorem drainFlush_awaiting (ds : DrainState) :
    (drainFlush ds).w.awaitingConfigure = ds.w.awaitingConfigure := by
  rcases hh : ds.held with _ | r <;>
    simp [drainFlush, hh, handle_keyrelease_fst, setPointerInWindow]

theorem spnProps_fields (base req : WindowProperties) :
    (spnProps base req).origin = base.origin ∧
    (spnProps base req).size = base.size ∧
    (spnProps base req).zOrder = ovr base.zOrder req.zOrder := by
  rcases req with ⟨o, sz, t, fs, ud, mi, fg, ch, zo, fx, op⟩
  unfold spnProps
  rcases t with _ | t <;> rcases fs with _ | f <;> rcases zo with _ | z <;>
    rcases ch with _ | c <;> exact ⟨rfl, rfl, rfl⟩

theorem fullscreenAdjust_fields (s : WState) (δ : WindowProperties) :
    (fullscreenAdjust s δ).zOrder = δ.zOrder ∧
    (fullscreenAdjust s δ).title = δ.title ∧
    (fullscreenAdjust s δ).cursorHidden = δ.cursorHidden ∧
    (fullscreenAdjust s δ).foreground = δ.foreground := by
  unfold fullscreenAdjust
  split_ifs <;> exact ⟨rfl, rfl, rfl, rfl⟩

theorem anySpecified_of_mask (q : WindowProperties)
    (h : spnMask q = true) : anySpecified q = true := by
  rcases q with ⟨o, sz, t, fs, ud, mi, fg, ch, zo, fx, op⟩
  unfold spnMask at h
  unfold anySpecified
  rcases o with _ | o <;> rcases sz with _ | sz <;> rcases zo with _ | zo <;>
    simp_all

theorem set_properties_now_eq (s : WState) (δ : WindowProperties)
    (h : anySpecified (fullscreenAdjust s δ) = true) :
    set_properties_now s δ =
      ({ s with
           properties := spnProps s.properties (fullscreenAdjust s δ)
           awaitingConfigure :=
             if spnMask (fullscreenAdjust s δ) then true else s.awaitingConfigure },
       (if spnMask (fullscreenAdjust s δ) then
          [Output.xReconfigureWMWindow (spnChanges (fullscreenAdjust s δ))]
        else []) ++
       (match (fullscreenAdjust s δ).cursorHidden with
        | some b => [Output.defineCursor b]
        | none => []) ++
       (match (fullscreenAdjust s δ).foreground with
        | some b => [Output.setInputFocus b]
        | none => []) ++
       [Output.wmRequest (set_wm_properties
          (addProperties s.properties (fullscreenAdjust s δ)) true)]) := by
  have hc : ¬((!(anySpecified (fullscreenAdjust s δ))) = true) := by simp [h]
  unfold set_properties_now
  rw [if_neg hc]

theorem set_properties_now_noop (s : WState) (δ : WindowProperties)
    (h : anySpecified (fullscreenAdjust s δ) = false) :
    set_properties_now s δ = (s, []) := by
  have hc : (!(anySpecified (fullscreenAdjust s δ))) = true := by simp [h]
  unfold set_properties_now
  rw [if_pos hc]

/-! ## Claim theorems -/

/-- C9: `close_window` is idempotent and safe from any partial state: from
an arbitrary window state (including partially failed opens), a second call
right after a first one leaves the state exactly as the first left it and
performs no native calls at all (every release step is individually
guarded). -/
theorem close_window_idempotent (s : WState) :
    close_window (close_window s).1 = ((close_window s).1, []) := by
  rcases s with ⟨xw, ic, gsg, act, awt, props, devs, cre, dw, dh⟩
  cases xw <;> cases ic <;> cases gsg <;> simp [close_window]

/-- C10: with a null native window handle, `process_events` is a no-op after
the base-class property processing: it drains no events, polls no raw
devices, emits nothing and leaves the whole window state unchanged. -/
theorem process_events_closed_noop (s : WState) (evs : List XEvent)
    (h : s.xwindow = none) : process_events s evs = (s, []) := by
  simp [process_events, h]

/-- C10 witness: processing a focus event against a concrete closed window
changes nothing and emits nothing. -/
theorem process_events_closed_noop_witness :
    process_events wClosed [XEvent.focusIn] = (wClosed, []) :=
  process_events_closed_noop wClosed [XEvent.focusIn] rfl

/-- C8: `move_pointer 0 x y` fails (false, state untouched, no native call)
exactly when the window is not foregrounded or the primary pointer is
marked outside the window, and otherwise succeeds and moves the primary
pointer to `(x, y)`; for a device index of at least 1 it fails exactly when
the index is not a valid raw-device slot and otherwise updates that slot's
pointer position. -/
theorem move_pointer_spec :
    (∀ (s : WState) (x y : Int),
      getForeground s.properties = false ∨
        (s.inputDevices.getD 0 defaultDevice).inWindow = false →
      move_pointer s 0 x y = (s, false, [])) ∧
    (∀ (s : WState) (x y : Int),
      getForeground s.properties = true →
      (s.inputDevices.getD 0 defaultDevice).inWindow = true →
      (move_pointer s 0 x y).2.1 = true ∧
      (move_pointer s 0 x y).2.2 = [Output.warpPointer x y] ∧
      (move_pointer s 0 x y).1.inputDevices.getD 0 defaultDevice = ⟨true, x, y⟩ ∧
      (move_pointer s 0 x y).1.properties = s.properties) ∧
    (∀ (s : WState) (d : Nat) (x y : Int), 1 ≤ d →
      ((move_pointer s d x y).2.1 = false ↔ s.inputDevices.length ≤ d) ∧
      (s.inputDevices.length ≤ d → move_pointer s d x y = (s, false, [])) ∧
      (d < s.inputDevices.length →
        (move_pointer s d x y).2.1 = true ∧
        (move_pointer s d x y).1.inputDevices.getD d defaultDevice = ⟨true, x, y⟩)) := by
  refine ⟨?_, ?_, ?_⟩
  · intro s x y h
    have hc : (!(getForeground s.properties) ||
        !((s.inputDevices.getD 0 defaultDevice).inWindow)) = true := by
      rcases h with h | h <;> rw [h] <;> simp
    unfold move_pointer
    rw [if_pos rfl, if_pos hc]
  · intro s x y h1 h2
    have hlen : 0 < s.inputDevices.length := by
      rcases hd : s.inputDevices with _ | ⟨a, t⟩
      · rw [hd] at h2; simp [defaultDevice] at h2
      · simp
    have hres : move_pointer s 0 x y =
        (setPointerInWindow s 0 x y, true, [Output.warpPointer x y]) := by
      unfold move_pointer
      have hc : (!(getForeground s.properties) ||
          !((s.inputDevices.getD 0 defaultDevice).inWindow)) = false := by
        rw [h1, h2]; rfl
      rw [if_pos rfl, if_neg]
      rw [hc]
      simp
    refine ⟨by rw [hres], by rw [hres], ?_, by rw [hres]; rfl⟩
    rw [hres]
    exact getD_set_self _ _ _ _ hlen
  · intro s d x y hd
    have hd0 : d ≠ 0 := by omega
    have hres_invalid : s.inputDevices.length ≤ d →
        move_pointer s d x y = (s, false, []) := by
      intro hlen
      unfold move_pointer
      rw [if_neg hd0, if_pos (by simp; omega)]
    have hres_valid : d < s.inputDevices.length →
        move_pointer s d x y = (setPointerInWindow s d x y, true, []) := by
      intro hlen
      unfold move_pointer
      rw [if_neg hd0, if_neg (by simp; omega)]
    refine ⟨?_, hres_invalid, ?_⟩
    · by_cases hlen : s.inputDevices.length ≤ d
      · rw [hres_invalid hlen]; simpa using hlen
      · rw [hres_valid (by omega)]; simpa using hlen
    · intro hlen
      rw [hres_valid hlen]
      exact ⟨rfl, getD_set_self _ _ _ _ hlen⟩

/-- C8 witness: on the concrete focused window with the pointer inside,
moving the primary pointer succeeds; on the same window without focus it
fails and changes nothing; device index 3 is not a valid raw slot. -/
theorem move_pointer_spec_witness :
    ((move_pointer wOpen 0 7 8).2.1 = true ∧
      (move_pointer wOpen 0 7 8).2.2 = [Output.warpPointer 7 8] ∧
      (move_pointer wOpen 0 7 8).1.inputDevices.getD 0 defaultDevice = ⟨true, 7, 8⟩ ∧
      (move_pointer wOpen 0 7 8).1.properties = wOpen.properties) ∧
    move_pointer { wOpen with
        properties := { wOpen.properties with foreground := some false } } 0 7 8 =
      ({ wOpen with
        properties := { wOpen.properties with foreground := some false } }, false, []) ∧
    ((move_pointer wOpen 3 7 8).2.1 = false ↔ wOpen.inputDevices.length ≤ 3) :=
  ⟨move_pointer_spec.2.1 wOpen 7 8 (by decide) (by decide),
   move_pointer_spec.1 _ 7 8 (Or.inl (by decide)),
   (move_pointer_spec.2.2 wOpen 3 7 8 (by decide)).1⟩

/-- C6: with fullscreen requested, `set_wm_properties` places the fullscreen
type atom in the window-type list, the fullscreen state atom in the
window-state list, and records a (fullscreen, add) action; with fullscreen
off (false or unset) it records a (fullscreen, remove) action and neither
written atom list contains a fullscreen atom. -/
theorem fullscreen_atoms_round_trip (p : WindowProperties) (m : Bool) :
    (getFullscreen p = true →
      Atom.netWmWindowTypeFullscreen ∈ (set_wm_properties p m).typeData ∧
      Atom.netWmStateFullscreen ∈ (set_wm_properties p m).stateData ∧
      (⟨Atom.netWmStateFullscreen, Atom.netWmStateAdd⟩ : SetAction) ∈
        (set_wm_properties p m).setData) ∧
    (getFullscreen p = false →
      (⟨Atom.netWmStateFullscreen, Atom.netWmStateRemove⟩ : SetAction) ∈
        (set_wm_properties p m).setData ∧
      Atom.netWmWindowTypeFullscreen ∉ (set_wm_properties p m).typeData ∧
      Atom.netWmStateFullscreen ∉ (set_wm_properties p m).stateData) := by
  constructor
  · intro h
    refine ⟨?_, ?_, ?_⟩ <;>
      simp [set_wm_properties, wmTypeData, wmStateData, wmSetData, h]
  · intro h
    refine ⟨?_, ?_, ?_⟩ <;>
      rcases hz : p.zOrder with _ | z <;> try cases z
    all_goals
      simp [set_wm_properties, wmTypeData, wmStateData, wmSetData, h, hz]

/-- C6 witness: a fullscreen request and a non-fullscreen undecorated
top-z-order request, checked concretely. -/
theorem fullscreen_atoms_round_trip_witness :
    (Atom.netWmWindowTypeFullscreen ∈
        (set_wm_properties { fullscreen := some true } true).typeData ∧
      Atom.netWmStateFullscreen ∈
        (set_wm_properties { fullscreen := some true } true).stateData ∧
      (⟨Atom.netWmStateFullscreen, Atom.netWmStateAdd⟩ : SetAction) ∈
        (set_wm_properties { fullscreen := some true } true).setData) ∧
    ((⟨Atom.netWmStateFullscreen, Atom.netWmStateRemove⟩ : SetAction) ∈
        (set_wm_properties
          { fullscreen := some false, undecorated := some true,
            zOrder := some ZOrder.top } false).setData ∧
      Atom.netWmWindowTypeFullscreen ∉
        (set_wm_properties
          { fullscreen := some false, undecorated := some true,
            zOrder := some ZOrder.top } false).typeData ∧
      Atom.netWmStateFullscreen ∉
        (set_wm_properties
          { fullscreen := some false, undecorated := some true,
            zOrder := some ZOrder.top } false).stateData) :=
  ⟨(fullscreen_atoms_round_trip { fullscreen := some true } true).1 (by decide),
   (fullscreen_atoms_round_trip
     { fullscreen := some false, undecorated := some true,
       zOrder := some ZOrder.top } false).2 (by decide)⟩

/-- C7: for every property set (hence each of the three z-order values) the
(atom, add-or-remove) action set built by the WM-hint builder never holds
contradictory actions for one atom, and applying the same z-order value
twice in a row through `set_properties_now` yields the identical state and
identical output (in particular the identical action set) both times. -/
theorem zorder_actions_consistent_idempotent :
    (∀ (p : WindowProperties) (m : Bool),
      noConflict (set_wm_properties p m).setData = true) ∧
    (∀ (s : WState) (z : ZOrder),
      set_properties_now (set_properties_now s { zOrder := some z }).1
          { zOrder := some z } =
        set_properties_now s { zOrder := some z }) := by
  constructor
  · intro p m
    cases hf : getFullscreen p <;> rcases hz : p.zOrder with _ | z <;> try cases z
    all_goals simp [set_wm_properties, wmSetData, hf, hz, noConflict]
  · intro s z
    cases z <;> rfl

/-- C2: a delta holding an origin and/or a size makes `set_properties_now`
latch `_awaiting_configure` before returning; the flag can only fall from
true to false through a ConfigureNotify event in the translator (per step,
and over a whole drain pass), and neither `set_properties_now` itself, nor
`move_pointer`, nor `close_window` ever clears it. -/
theorem awaiting_configure_protocol :
    (∀ (s : WState) (δ : WindowProperties),
      δ.origin.isSome = true ∨ δ.size.isSome = true →
      (set_properties_now s δ).1.awaitingConfigure = true) ∧
    (∀ (s : WState) (δ : WindowProperties),
      (set_properties_now s δ).1.awaitingConfigure = false →
      s.awaitingConfigure = false) ∧
    (∀ (ds : DrainState) (e : XEvent),
      (drainStep ds e).w.awaitingConfigure = false →
      ds.w.awaitingConfigure = false ∨ ∃ a b, e = XEvent.configureNotify a b) ∧
    (∀ (w : WState) (evs : List XEvent),
      (drainEvents w evs).w.awaitingConfigure = false →
      w.awaitingConfigure = false ∨ ∃ a b, XEvent.configureNotify a b ∈ evs) ∧
    (∀ (s : WState) (d : Nat) (x y : Int),
      (move_pointer s d x y).1.awaitingConfigure = s.awaitingConfigure) ∧
    (∀ s : WState, (close_window s).1.awaitingConfigure = s.awaitingConfigure) := by
  refine ⟨?_, ?_, drainStep_awaiting, ?_, ?_, fun s => (close_window_fields s).1⟩
  · intro s δ h
    have hMask : spnMask (fullscreenAdjust s δ) = true := by
      unfold fullscreenAdjust spnMask
      split_ifs with hf
      · simp
      · rcases h with h | h <;> simp [h]
    rw [set_properties_now_eq s δ (anySpecified_of_mask _ hMask)]
    simp [hMask]
  · intro s δ h
    by_cases hAny : anySpecified (fullscreenAdjust s δ) = true
    · rw [set_properties_now_eq s δ hAny] at h
      by_cases hm : spnMask (fullscreenAdjust s δ) = true
      · simp [hm] at h
      · have hm' : spnMask (fullscreenAdjust s δ) = false := by simpa using hm
        simpa [hm'] using h
    · rw [set_properties_now_noop s δ (by simpa using hAny)] at h
      exact h
  · intro w evs h
    rw [drainEvents, drainFlush_awaiting] at h
    exact drainLoop_awaiting evs ⟨w, none, []⟩ h
  · intro s d x y
    unfold move_pointer
    split_ifs <;> rfl

/-- C2 witness: a pure size delta on the concrete open window latches the
flag. -/
theorem awaiting_configure_protocol_witness :
    (set_properties_now wOpen { size := some (320, 200) }).1.awaitingConfigure = true :=
  awaiting_configure_protocol.1 wOpen { size := some (320, 200) } (Or.inr (by decide))

/-- C3 counterexample: on the concrete open window (model z-order `normal`),
a z-order-to-top delta sends the reconfigure request to the server yet the
live property model's z-order is already `top` when `set_properties_now`
returns, before any configure acknowledgement is processed — so the z-order
field is not left stale until the acknowledgement. -/
theorem zorder_adopted_immediately_cex :
    Output.xReconfigureWMWindow ⟨none, none, some StackMode.above⟩ ∈
      (set_properties_now wOpen { zOrder := some ZOrder.top }).2 ∧
    wOpen.properties.zOrder = some ZOrder.normal ∧
    (set_properties_now wOpen { zOrder := some ZOrder.top }).1.properties.zOrder =
      some ZOrder.top ∧
    (set_properties_now wOpen { zOrder := some ZOrder.top }).1.awaitingConfigure =
      true := by
  decide

/-- C3 (amended): origin and size changes are sent to the server and the
corresponding model fields stay stale; a z-order change is sent to the
server but adopted into the model immediately; on a configure
acknowledgement a non-fixed-size window adopts the reported size (while
origin and z-order are untouched by the acknowledgement handler). -/
theorem geometry_requests_stale_fields :
    (∀ (s : WState) (δ : WindowProperties),
      (set_properties_now s δ).1.properties.origin = s.properties.origin ∧
      (set_properties_now s δ).1.properties.size = s.properties.size) ∧
    (∀ (s : WState) (δ : WindowProperties) (z : ZOrder), δ.zOrder = some z →
      (set_properties_now s δ).1.properties.zOrder = some z) ∧
    (∀ (s : WState) (δ : WindowProperties),
      δ.origin.isSome = true ∨ δ.size.isSome = true ∨ δ.zOrder.isSome = true →
      ∃ c, Output.xReconfigureWMWindow c ∈ (set_properties_now s δ).2) ∧
    (∀ (ds : DrainState) (ew eh : Nat), ds.held = none →
      getFixedSize ds.w.properties = false →
      (drainStep ds (XEvent.configureNotify ew eh)).w.properties.size = some (ew, eh) ∧
      (drainStep ds (XEvent.configureNotify ew eh)).w.properties.origin =
        ds.w.properties.origin ∧
      (drainStep ds (XEvent.configureNotify ew eh)).w.properties.zOrder =
        ds.w.properties.zOrder) := by
  refine ⟨?_, ?_, ?_, ?_⟩
  · intro s δ
    by_cases hAny : anySpecified (fullscreenAdjust s δ) = true
    · rw [set_properties_now_eq s δ hAny]
      exact ⟨(spnProps_fields _ _).1, (spnProps_fields _ _).2.1⟩
    · rw [set_properties_now_noop s δ (by simpa using hAny)]
      exact ⟨rfl, rfl⟩
  · intro s δ z hz
    have hz' : (fullscreenAdjust s δ).zOrder = some z := by
      rw [(fullscreenAdjust_fields s δ).1, hz]
    have hMask : spnMask (fullscreenAdjust s δ) = true := by
      simp [spnMask, hz']
    rw [set_properties_now_eq s δ (anySpecified_of_mask _ hMask)]
    have hzp := (spnProps_fields s.properties (fullscreenAdjust s δ)).2.2
    simp only []
    rw [hzp, hz']
    rfl
  · intro s δ h
    have hMask : spnMask (fullscreenAdjust s δ) = true := by
      unfold fullscreenAdjust spnMask
      split_ifs with hf
      · simp
      · rcases h with h | h | h <;> simp [h]
    rw [set_properties_now_eq s δ (anySpecified_of_mask _ hMask)]
    refine ⟨spnChanges (fullscreenAdjust s δ), ?_⟩
    simp [hMask]
  · intro ds ew eh hheld hfix
    simp only [drainStep, hheld]
    simp [processSwitch, hfix, system_changed_properties, addProperties, ovr]

/-- C3 (amended) witness: the z-order delta is adopted immediately on the
concrete window; a size delta yields a reconfigure request. -/
theorem geometry_requests_stale_fields_witness :
    (set_properties_now wOpen { zOrder := some ZOrder.top }).1.properties.zOrder =
      some ZOrder.top ∧
    ∃ c, Output.xReconfigureWMWindow c ∈
      (set_properties_now wOpen { size := some (320, 200) }).2 :=
  ⟨geometry_requests_stale_fields.2.1 wOpen { zOrder := some ZOrder.top }
      ZOrder.top rfl,
   geometry_requests_stale_fields.2.2.1 wOpen { size := some (320, 200) }
      (Or.inr (Or.inl (by decide)))⟩

/-- C4 counterexample: on the concrete fixed-size window with
`_awaiting_configure` latched, a ConfigureNotify reporting 50x60 makes the
translator send the corrective 100x100 resize request to the window
manager, yet the flag ends up false — the defensive re-assertion sends a
geometry request without latching AwaitingConfigure. -/
theorem fixed_size_reassert_no_latch_cex :
    Output.xConfigureWindow 100 100 ∈
      (drainStep ⟨{ wOpen with awaitingConfigure := true }, none, []⟩
        (XEvent.configureNotify 50 60)).out ∧
    (drainStep ⟨{ wOpen with awaitingConfigure := true }, none, []⟩
        (XEvent.configureNotify 50 60)).w.awaitingConfigure = false := by
  decide

/-- C4 (amended): AwaitingConfigure is latched true whenever
`set_properties_now` sends a geometry request (origin, size or z-order
present) and can only be cleared by a ConfigureNotify processed by the
translator; however the defensive size re-assertion performed on a
ConfigureNotify for a fixed-size window sends its corrective request while
leaving the flag false. -/
theorem awaiting_configure_latch_amended :
    (∀ (s : WState) (δ : WindowProperties),
      δ.origin.isSome = true ∨ δ.size.isSome = true ∨ δ.zOrder.isSome = true →
      (set_properties_now s δ).1.awaitingConfigure = true) ∧
    (∀ (ds : DrainState) (e : XEvent),
      (drainStep ds e).w.awaitingConfigure = false →
      ds.w.awaitingConfigure = false ∨ ∃ a b, e = XEvent.configureNotify a b) ∧
    (∀ (ds : DrainState) (ew eh mw mh : Nat), ds.held = none →
      getFixedSize ds.w.properties = true →
      ds.w.properties.size = some (mw, mh) → (ew ≠ mw ∨ eh ≠ mh) →
      (drainStep ds (XEvent.configureNotify ew eh)).w.awaitingConfigure = false ∧
      Output.xConfigureWindow mw mh ∈
        (drainStep ds (XEvent.configureNotify ew eh)).out) := by
  refine ⟨?_, drainStep_awaiting, ?_⟩
  · intro s δ h
    have hMask : spnMask (fullscreenAdjust s δ) = true := by
      unfold fullscreenAdjust spnMask
      split_ifs with hf
      · simp
      · rcases h with h | h | h <;> simp [h]
    rw [set_properties_now_eq s δ (anySpecified_of_mask _ hMask)]
    simp [hMask]
  · intro ds ew eh mw mh hheld hfix hsz hne
    simp only [drainStep, hheld]
    simp [processSwitch, hfix, getSize, hsz, hne]

/-- C4 (amended) witness: a z-order delta latches the flag on the concrete
window; the defensive re-assertion leaves the flag false while emitting the
corrective request. -/
theorem awaiting_configure_latch_amended_witness :
    (set_properties_now wOpen { zOrder := some ZOrder.top }).1.awaitingConfigure =
      true ∧
    ((drainStep ⟨wOpen, none, []⟩
        (XEvent.configureNotify 50 60)).w.awaitingConfigure = false ∧
      Output.xConfigureWindow 100 100 ∈
        (drainStep ⟨wOpen, none, []⟩ (XEvent.configureNotify 50 60)).out) :=
  ⟨awaiting_configure_latch_amended.1 wOpen { zOrder := some ZOrder.top }
      (Or.inr (Or.inr (by decide))),
   awaiting_configure_latch_amended.2.2 ⟨wOpen, none, []⟩ 50 60 100 100 rfl
      (by decide) (by decide) (Or.inl (by decide))⟩

/-- C5: on a ConfigureNotify, a fixed-size window whose reported size
differs from the model's size emits a corrective resize request carrying
the model's size and keeps the whole property model unchanged (only the
AwaitingConfigure flag is cleared); a non-fixed-size window instead adopts
the reported size into the model and notifies the engine. -/
theorem fixed_size_enforcement :
    (∀ (ds : DrainState) (ew eh mw mh : Nat), ds.held = none →
      getFixedSize ds.w.properties = true →
      ds.w.properties.size = some (mw, mh) → (ew ≠ mw ∨ eh ≠ mh) →
      drainStep ds (XEvent.configureNotify ew eh) =
        ⟨{ ds.w with awaitingConfigure := false }, none,
         ds.out ++ [Output.xConfigureWindow mw mh]⟩) ∧
    (∀ (ds : DrainState) (ew eh : Nat), ds.held = none →
      getFixedSize ds.w.properties = false →
      drainStep ds (XEvent.configureNotify ew eh) =
        ⟨{ ds.w with
             awaitingConfigure := false
             properties :=
               addProperties ds.w.properties { size := some (ew, eh) } }, none,
         ds.out ++ [Output.systemChangedProperties { size := some (ew, eh) }]⟩) := by
  constructor
  · intro ds ew eh mw mh hheld hfix hsz hne
    simp only [drainStep, hheld]
    simp [processSwitch, hfix, getSize, hsz, hne]
  · intro ds ew eh hheld hfix
    simp only [drainStep, hheld]
    simp [processSwitch, hfix, system_changed_properties]

/-- C5 witness: the concrete fixed-size 100x100 window answers a 50x60
configure report with a corrective 100x100 request and an unchanged model;
the non-fixed variant adopts 50x60. -/
theorem fixed_size_enforcement_witness :
    drainStep ⟨wOpen, none, []⟩ (XEvent.configureNotify 50 60) =
      ⟨{ wOpen with awaitingConfigure := false }, none,
       [Output.xConfigureWindow 100 100]⟩ ∧
    drainStep ⟨{ wOpen with properties :=
        { wOpen.properties with fixedSize := some false } }, none, []⟩
        (XEvent.configureNotify 50 60) =
      ⟨{ wOpen with
           awaitingConfigure := false
           properties := addProperties
             { wOpen.properties with fixedSize := some false }
             { size := some (50, 60) } }, none,
       [Output.systemChangedProperties { size := some (50, 60) }]⟩ :=
  ⟨fixed_size_enforcement.1 ⟨wOpen, none, []⟩ 50 60 100 100 rfl (by decide)
      (by decide) (Or.inl (by decide)),
   fixed_size_enforcement.2 ⟨{ wOpen with properties :=
      { wOpen.properties with fixedSize := some false } }, none, []⟩ 50 60 rfl
      (by decide)⟩

/-- C1: key-repeat disambiguation.  (i) From a drain state with no buffered
release, a key release immediately followed by a key press of the same
keycode within one time unit produces exactly the outputs of the press —
one keystroke and one button-down — and no button-up and no extra
down/up pair for the buffered release.  (ii) With a buffered release, any
next event that is not a matching press first flushes the release
(a genuine button-up, by (iii)) and then processes that event normally.
(iv) A release still buffered at the end of the drain pass is flushed as a
genuine button-up. -/
theorem key_repeat_disambiguation :
    (∀ (ds : DrainState) (r p : XKeyEvent) (c : Char),
      ds.held = none → ds.w.ic = false →
      (get_button p).get_ascii_equivalent = some c →
      p.keycode = r.keycode → r.time ≤ p.time → p.time ≤ r.time + 1 →
      p.time < 2 ^ 64 →
      (drainLoop ds [XEvent.keyRelease r, XEvent.keyPress p]).held = none ∧
      (drainLoop ds [XEvent.keyRelease r, XEvent.keyPress p]).out =
        ds.out ++ [Output.setPointer 0 p.x p.y, Output.keystroke 0 c,
                   Output.setPointer 0 p.x p.y,
                   Output.buttonDown 0 (ButtonHandle.asciiKey c)] ∧
      ([Output.setPointer 0 p.x p.y, Output.keystroke 0 c,
        Output.setPointer 0 p.x p.y,
        Output.buttonDown 0 (ButtonHandle.asciiKey c)].countP isKeystrokeOut = 1 ∧
       [Output.setPointer 0 p.x p.y, Output.keystroke 0 c,
        Output.setPointer 0 p.x p.y,
        Output.buttonDown 0 (ButtonHandle.asciiKey c)].countP isButtonDownOut = 1 ∧
       [Output.setPointer 0 p.x p.y, Output.keystroke 0 c,
        Output.setPointer 0 p.x p.y,
        Output.buttonDown 0 (ButtonHandle.asciiKey c)].countP isButtonUpOut = 0)) ∧
    (∀ (ds : DrainState) (r : XKeyEvent) (e : XEvent),
      ds.held = some r → isRepeatOf r e = false →
      drainStep ds e = flushThenSwitch ds r e) ∧
    (∀ (s : WState) (r : XKeyEvent) (b : ButtonHandle),
      get_button r = b → b ≠ ButtonHandle.none →
      (handle_keyrelease s r).2 =
        [Output.setPointer 0 r.x r.y, Output.buttonUp 0 b]) ∧
    (∀ (ds : DrainState) (r : XKeyEvent), ds.held = some r →
      drainFlush ds = ⟨(handle_keyrelease ds.w r).1, none,
                       ds.out ++ (handle_keyrelease ds.w r).2⟩) := by
  refine ⟨?_, ?_, ?_, ?_⟩
  · intro ds r p c hheld hic hascii hkey ht1 ht2 ht3
    have hbtn : get_button p = ButtonHandle.asciiKey c := ascii_eq_of_get_ascii hascii
    have hrep : isRepeatOf r (XEvent.keyPress p) = true := by
      simp [isRepeatOf, hkey, xTimeSub_le_one ht1 ht2 ht3]
    have h1 : drainStep ds (XEvent.keyRelease r) = ⟨ds.w, some r, ds.out⟩ := by
      simp [drainStep, hheld, processSwitch]
    have hks : (handle_keystroke ds.w p).2 =
        [Output.setPointer 0 p.x p.y, Output.keystroke 0 c] := by
      simp [handle_keystroke, hic, hascii]
    have hkp : ∀ w : WState, (handle_keypress w p).2 =
        [Output.setPointer 0 p.x p.y,
         Output.buttonDown 0 (ButtonHandle.asciiKey c)] := by
      intro w
      simp [handle_keypress, hbtn]
    have h2 : drainLoop ds [XEvent.keyRelease r, XEvent.keyPress p] =
        ⟨(handle_keypress (handle_keystroke ds.w p).1 p).1, none,
         ds.out ++ (handle_keystroke ds.w p).2 ++
           (handle_keypress (handle_keystroke ds.w p).1 p).2⟩ := by
      simp only [drainLoop, List.foldl, h1]
      simp [drainStep, hrep]
    rw [h2, hks, hkp]
    refine ⟨rfl, by simp, by simp [List.countP_cons, isKeystrokeOut,
      isButtonDownOut, isButtonUpOut]⟩
  · intro ds r e hheld hrep
    simp [drainStep, hheld, hrep]
  · intro s r b hbtn hne
    cases b <;> first
      | exact absurd rfl hne
      | simp [handle_keyrelease, hbtn]
  · intro ds r hheld
    simp [drainFlush, hheld]

/-- C1 witness: keycode 38 released at time 1000 and pressed again at time
1001 on the concrete window coalesces into exactly one keystroke plus one
button-down, with no button-up. -/
theorem key_repeat_disambiguation_witness :
    (drainLoop ⟨wOpen, none, []⟩
      [XEvent.keyRelease relEv, XEvent.keyPress prsEv]).held = none ∧
    (drainLoop ⟨wOpen, none, []⟩
      [XEvent.keyRelease relEv, XEvent.keyPress prsEv]).out =
      [] ++ [Output.setPointer 0 prsEv.x prsEv.y,
             Output.keystroke 0 (Char.ofNat 0x61),
             Output.setPointer 0 prsEv.x prsEv.y,
             Output.buttonDown 0 (ButtonHandle.asciiKey (Char.ofNat 0x61))] ∧
    ([Output.setPointer 0 prsEv.x prsEv.y, Output.keystroke 0 (Char.ofNat 0x61),
      Output.setPointer 0 prsEv.x prsEv.y,
      Output.buttonDown 0 (ButtonHandle.asciiKey (Char.ofNat 0x61))].countP
        isKeystrokeOut = 1 ∧
     [Output.setPointer 0 prsEv.x prsEv.y, Output.keystroke 0 (Char.ofNat 0x61),
      Output.setPointer 0 prsEv.x prsEv.y,
      Output.buttonDown 0 (ButtonHandle.asciiKey (Char.ofNat 0x61))].countP
        isButtonDownOut = 1 ∧
     [Output.setPointer 0 prsEv.x prsEv.y, Output.keystroke 0 (Char.ofNat 0x61),
      Output.setPointer 0 prsEv.x prsEv.y,
      Output.buttonDown 0 (ButtonHandle.asciiKey (Char.ofNat 0x61))].countP
        isButtonUpOut = 0) :=
  key_repeat_disambiguation.1 ⟨wOpen, none, []⟩ relEv prsEv (Char.ofNat 0x61)
    rfl rfl (by decide) (by decide) (by decide) (by decide) (by decide)

end GlxWindow
